import Mathlib

/-
  Verification development for the EmailMind SaaS backend.

  Shallow embedding of the Python code under backend/app into Lean 4.
  Python machine behaviour is modelled as follows: fallible code returns
  values in the Except monad over PyErr; calls to external services
  (OpenAI, the HuggingFace sentiment pipeline, Stripe) are abstracted as
  oracle parameters of type Except PyErr _, since their behaviour is not
  part of the repository; dictionaries keyed by strings become structures
  or association lists; datetimes become integer Unix timestamps in
  seconds; Python floats become rationals.
-/

/-- A Python exception, abstracted to the information the code inspects. -/
inductive PyErr where
  /-- A TypeError, e.g. from calling a constructor with a wrong arity. -/
  | typeError : PyErr
  /-- Any other exception, with its message. -/
  | exception : String → PyErr
deriving DecidableEq, Repr

/-! ## backend/app/core/ai_engine.py -/

/-- The dictionary shape produced by classify_email: a category name and a
confidence score. json.loads of the model answer is abstracted as an oracle
returning this shape or raising. -/
structure ClassificationResult where
  category : String
  confidence : ℚ
deriving DecidableEq, Repr

/-- AIEngine.classify_email. Everything inside the try block that can raise
(the OpenAI chat call and json.loads of its reply) is given by the two
oracle arguments; on any failure the except branch returns the fixed
fallback dictionary. -/
def classify_email (api_response : Except PyErr String)
    (json_loads : String → Except PyErr ClassificationResult) : ClassificationResult :=
  match (do
      let content ← api_response
      json_loads content : Except PyErr ClassificationResult) with
  | .ok result => result
  | .error _ => { category := "unknown", confidence := 0 }

/-- The raw output of the HuggingFace sentiment pipeline at index 0. -/
structure SentimentRaw where
  label : String
  score : ℚ
deriving DecidableEq, Repr

/-- The dictionary returned by analyze_sentiment. -/
structure SentimentResult where
  sentiment : String
  confidence : ℚ
  raw_result : Option SentimentRaw
deriving DecidableEq, Repr

/-- The sentiment_mapping dict lookup with default result.label.lower(). -/
def sentiment_mapping (label : String) : String :=
  if label = "LABEL_0" then "negative"
  else if label = "LABEL_1" then "neutral"
  else if label = "LABEL_2" then "positive"
  else label.toLower

/-- AIEngine.analyze_sentiment. The pipeline call (including the truncation
of the text and the indexing at 0) is the oracle argument; on success the
label is mapped to a standardized sentiment, on any exception the fixed
neutral fallback is returned. -/
def analyze_sentiment (analyzer_response : Except PyErr SentimentRaw) : SentimentResult :=
  match analyzer_response with
  | .ok result =>
      { sentiment := sentiment_mapping result.label
        confidence := result.score
        raw_result := some result }
  | .error _ => { sentiment := "neutral", confidence := 0, raw_result := none }

/-- AIEngine.calculate_importance_score. The oracle argument stands for the
OpenAI call followed by float() of the reply; on success the parsed score is
clamped into the unit interval, on any exception 0.5 is returned. -/
def calculate_importance_score (model_response : Except PyErr ℚ) : ℚ :=
  match model_response with
  | .ok score => max 0 (min 1 score)
  | .error _ => 1/2

/-- The email dictionary fields read by identify_unsubscribe_candidates. -/
structure EmailDict where
  category : String
  sender : String
  opened : Bool
deriving DecidableEq, Repr

/-- A candidate dictionary built by identify_unsubscribe_candidates. The
formatted recommendation_reason string is not modelled; it carries no data
beyond open_rate and email_count. -/
structure UnsubscribeCandidate where
  sender : String
  email_count : ℕ
  open_rate : ℚ
  confidence : ℚ
deriving DecidableEq, Repr

/-- The filter condition selecting newsletter or promotional emails. -/
def is_newsletter_or_promotional (e : EmailDict) : Bool :=
  e.category == "newsletter" || e.category == "promotional"

/-- sender_stats count for one sender: the number of newsletter emails from
that sender accumulated by the grouping loop. -/
def sender_email_count (newsletter_emails : List EmailDict) (s : String) : ℕ :=
  newsletter_emails.countP (fun e => e.sender == s)

/-- sender_stats opened count for one sender. -/
def sender_opened_count (newsletter_emails : List EmailDict) (s : String) : ℕ :=
  newsletter_emails.countP (fun e => e.sender == s && e.opened)

/-- The body of the loop over sender_stats.items(): open_rate, the low
engagement test count greater than 5 and open_rate below 0.1, and the
candidate dictionary with confidence min(0.9, (1 - open_rate) * (count / 20)). -/
def make_candidate (newsletter_emails : List EmailDict) (s : String) :
    Option UnsubscribeCandidate :=
  let cnt := sender_email_count newsletter_emails s
  let opened := sender_opened_count newsletter_emails s
  let open_rate : ℚ := if cnt > 0 then (opened : ℚ) / (cnt : ℚ) else 0
  if cnt > 5 ∧ open_rate < 1/10 then
    some { sender := s
           email_count := cnt
           open_rate := open_rate
           confidence := min (9/10) ((1 - open_rate) * ((cnt : ℚ) / 20)) }
  else none

/-- The descending comparison used by candidates.sort(key=confidence,
reverse=True). -/
def confidence_desc (a b : UnsubscribeCandidate) : Prop :=
  b.confidence ≤ a.confidence

instance : DecidableRel confidence_desc := fun a b =>
  inferInstanceAs (Decidable (b.confidence ≤ a.confidence))

/-- AIEngine.identify_unsubscribe_candidates. The raised flag models an
exception anywhere in the try block, answered by the except branch with [].
The Python dict grouping by sender is modelled by iterating over the
deduplicated sender list and counting; the sort (stable, descending by
confidence) is modelled by insertion sort with the descending relation,
which only fixes the order among equal confidences differently — a
distinction the code never observes. -/
def identify_unsubscribe_candidates (emails : List EmailDict) (raised : Bool) :
    List UnsubscribeCandidate :=
  if raised then []
  else
    let newsletter_emails := emails.filter is_newsletter_or_promotional
    if newsletter_emails.isEmpty then []
    else
      let senders := (newsletter_emails.map (fun e => e.sender)).dedup
      let candidates := senders.filterMap (make_candidate newsletter_emails)
      (candidates.insertionSort confidence_desc).take 10

instance : IsTotal UnsubscribeCandidate confidence_desc :=
  ⟨fun a b => (le_total b.confidence a.confidence).imp id id⟩

instance : IsTrans UnsubscribeCandidate confidence_desc :=
  ⟨fun _ _ _ h1 h2 => le_trans h2 h1⟩

/-- A concrete inbox: six unopened newsletters from one sender and one
opened work email. -/
def c10_input : List EmailDict :=
  [⟨"newsletter", "a", false⟩, ⟨"newsletter", "a", false⟩, ⟨"newsletter", "a", false⟩,
   ⟨"newsletter", "a", false⟩, ⟨"newsletter", "a", false⟩, ⟨"newsletter", "a", false⟩,
   ⟨"work", "b", true⟩]

/-! ## backend/app/api/dependencies.py -/

/-- One entry of the subscription_limits dict; -1 encodes unlimited. -/
structure LimitsEntry where
  emails : ℤ
  api_calls : ℤ
deriving DecidableEq, Repr

/-- The subscription_limits dict lookup with default free_trial, as done by
subscription_limits.get(tier, subscription_limits[free_trial]). -/
def subscription_limits (tier : String) : LimitsEntry :=
  if tier = "free_trial" then { emails := 1000, api_calls := 100 }
  else if tier = "starter" then { emails := 10000, api_calls := 1000 }
  else if tier = "professional" then { emails := 100000, api_calls := 10000 }
  else if tier = "enterprise" then { emails := -1, api_calls := -1 }
  else { emails := 1000, api_calls := 100 }

/-- The fields of the User model read by check_subscription_limits; the
subscription_tier field holds the .value string of the tier enum. -/
structure UserRec where
  subscription_tier : String
  emails_processed : ℤ
  api_calls_this_month : ℤ
deriving DecidableEq, Repr

/-- An HTTPException raised by a route handler or dependency. -/
structure HTTPExc where
  status_code : ℕ
  detail : String
deriving DecidableEq, Repr

/-- check_subscription_limits: raises HTTP 429 when a finite limit of the
looked-up tier is reached, otherwise returns the user unchanged. -/
def check_subscription_limits (current_user : UserRec) : Except HTTPExc UserRec :=
  let limits := subscription_limits current_user.subscription_tier
  if limits.emails ≠ -1 ∧ current_user.emails_processed ≥ limits.emails then
    .error { status_code := 429
             detail := "Email processing limit exceeded for your subscription tier" }
  else if limits.api_calls ≠ -1 ∧ current_user.api_calls_this_month ≥ limits.api_calls then
    .error { status_code := 429
             detail := "API call limit exceeded for your subscription tier" }
  else .ok current_user

/-- The email limit per tier as the claim words it: free_trial 1000,
starter 10000, professional 100000, enterprise unlimited, any unrecognized
tier falling back to the free_trial limit. -/
def spec_email_limit (tier : String) : Option ℤ :=
  if tier = "starter" then some 10000
  else if tier = "professional" then some 100000
  else if tier = "enterprise" then none
  else some 1000

/-- The monthly API-call limit per tier as the claim words it. -/
def spec_api_limit (tier : String) : Option ℤ :=
  if tier = "starter" then some 1000
  else if tier = "professional" then some 10000
  else if tier = "enterprise" then none
  else some 100

/-! ## backend/app/services/payment_service.py -/

/-- The event-type dispatch inside handle_webhook_event. The four private
handlers query and mutate the database; for this claim only their success or
failure matters, so they are oracle parameters acting on an abstract state.
An event of any other type is not dispatched at all. -/
def webhook_dispatch {σ : Type}
    (on_subscription_updated on_subscription_deleted
     on_payment_succeeded on_payment_failed : σ → Except PyErr σ)
    (event_type : String) (st : σ) : Except PyErr σ :=
  if event_type = "customer.subscription.updated" then on_subscription_updated st
  else if event_type = "customer.subscription.deleted" then on_subscription_deleted st
  else if event_type = "invoice.payment_succeeded" then on_payment_succeeded st
  else if event_type = "invoice.payment_failed" then on_payment_failed st
  else .ok st

/-- PaymentService.handle_webhook_event: dispatch on the event type inside a
try block; return True when nothing raised, False when the dispatch raised. -/
def handle_webhook_event {σ : Type}
    (on_subscription_updated on_subscription_deleted
     on_payment_succeeded on_payment_failed : σ → Except PyErr σ)
    (event_type : String) (st : σ) : Bool × σ :=
  match webhook_dispatch on_subscription_updated on_subscription_deleted
      on_payment_succeeded on_payment_failed event_type st with
  | .ok st2 => (true, st2)
  | .error _ => (false, st)

/-! ## backend/app/api/v1/subscriptions.py -/

/-- The fields of the Subscription model row that create_subscription reads. -/
structure SubscriptionRow where
  user_id : ℤ
  status : String
deriving DecidableEq, Repr

/-- The dict returned by payment_service.create_subscription, abstracted:
the Stripe call is external, so its outcome is an oracle input. -/
structure PaymentOutcome where
  success : Bool
  error : Option String
  subscription : String
  client_secret : Option String
deriving DecidableEq, Repr

/-- The response body of the create route on success. -/
structure CreateSubscriptionResponse where
  success : Bool
  subscription : String
  client_secret : Option String
  message : String
deriving DecidableEq, Repr

/-- The create_subscription route handler: reject with HTTP 400 when the
user already has an active subscription row, then create through the
payment service and reject with HTTP 400 when that reports failure. -/
def create_subscription (db_subscriptions : List SubscriptionRow) (current_user_id : ℤ)
    (payment_result : PaymentOutcome) : Except HTTPExc CreateSubscriptionResponse :=
  if (db_subscriptions.find? (fun s =>
      s.user_id == current_user_id && s.status == "active")).isSome then
    .error { status_code := 400, detail := "User already has an active subscription" }
  else if payment_result.success = false then
    .error { status_code := 400
             detail := payment_result.error.getD "Failed to create subscription" }
  else
    .ok { success := true
          subscription := payment_result.subscription
          client_secret := payment_result.client_secret
          message := "Subscription created successfully" }

/-! ## backend/app/services/analytics_service.py -/

/-- An Email ORM row with the attributes read by the task and analytics
code (the task modules address the Email model through these attributes). -/
structure EmailRow where
  id : ℕ
  user_id : ℤ
  message_id : String
  subject : String
  sender : String
  recipient : String
  cc : List String
  bcc : List String
  thread_id : Option ℕ
  received_at : ℤ
  is_read : Bool
  is_important : Bool
  ai_processed : Bool
  ai_processed_at : Option ℤ
  category : Option String
  confidence_score : ℚ
  importance_score : Option ℚ
  created_at : ℤ
deriving DecidableEq, Repr

/-- Python round to the nearest integer, ties to even, as float rounding
behaves on exactly representable halves. -/
def py_round_half_even (q : ℚ) : ℤ :=
  let f : ℤ := ⌊q⌋
  let r : ℚ := q - (f : ℚ)
  if r < 1/2 then f
  else if 1/2 < r then f + 1
  else if f % 2 = 0 then f else f + 1

/-- round(x, 2): round to two decimal places. -/
def py_round2 (q : ℚ) : ℚ := (py_round_half_even (q * 100) : ℚ) / 100

/-- (end_date - start_date).days or 1: the floor of the range in whole days,
with 1 substituted when that is zero. -/
def days_diff_or_one (start_date end_date : ℤ) : ℤ :=
  let d := Int.fdiv (end_date - start_date) 86400
  if d = 0 then 1 else d

/-- The base query filter of get_email_volume_analytics: the emails of the
user with created_at in the closed range. -/
def email_in_range (user_id start_date end_date : ℤ) (e : EmailRow) : Bool :=
  e.user_id == user_id && decide (start_date ≤ e.created_at) &&
    decide (e.created_at ≤ end_date)

/-- One entry of the time_series list. -/
structure TimeBucket where
  date : ℤ
  count : ℕ
deriving DecidableEq, Repr

/-- The dict returned by get_email_volume_analytics. -/
structure VolumeAnalytics where
  total_emails : ℕ
  time_series : List TimeBucket
  average_per_day : ℚ
  peak_day : Option TimeBucket
deriving DecidableEq, Repr

/-- max(time_groups.items(), key=count) over the series, keeping the
earlier entry on ties as Python max does. -/
def peak_of (l : List TimeBucket) : Option TimeBucket :=
  match l with
  | [] => none
  | x :: xs => some (xs.foldl (fun acc y => if acc.count < y.count then y else acc) x)

/-- The daily granularity bucket: the calendar day of the timestamp. -/
def daily_bucket (t : ℤ) : ℤ := Int.fdiv t 86400

/-- The weekly granularity bucket: the Monday of the week of the timestamp
(day 0, 1970-01-01, was a Thursday, weekday 3 with Monday as 0). -/
def weekly_bucket (t : ℤ) : ℤ :=
  let day := Int.fdiv t 86400
  day - (day + 3) % 7

/-- AnalyticsService.get_email_volume_analytics. The per-granularity bucket
computation (date().isoformat(), the Monday of the week, or the year-month
string, all of which sort like their bucket values) is the bucket_key
parameter applied to created_at; grouping into time_groups followed by
sorted(items()) is modelled by sorting the deduplicated keys and counting. -/
def get_email_volume_analytics (db : List EmailRow) (user_id start_date end_date : ℤ)
    (bucket_key : ℤ → ℤ) : VolumeAnalytics :=
  let emails := db.filter (email_in_range user_id start_date end_date)
  if emails.isEmpty then
    { total_emails := 0, time_series := [], average_per_day := 0, peak_day := none }
  else
    let keys := ((emails.map (fun e => bucket_key e.created_at)).dedup).insertionSort (· ≤ ·)
    let time_series := keys.map (fun k =>
      { date := k, count := emails.countP (fun e => bucket_key e.created_at == k) })
    let total_emails := emails.length
    let days_diff := days_diff_or_one start_date end_date
    { total_emails := total_emails
      time_series := time_series
      average_per_day := py_round2 ((total_emails : ℚ) / (days_diff : ℚ))
      peak_day := peak_of time_series }

/-- A concrete email of user 1 created at timestamp 0. -/
def c8_email : EmailRow :=
  { id := 1, user_id := 1, message_id := "m1", subject := "s", sender := "a@x",
    recipient := "b@x", cc := [], bcc := [], thread_id := none, received_at := 0,
    is_read := false, is_important := false, ai_processed := false,
    ai_processed_at := none, category := none, confidence_score := 0,
    importance_score := none, created_at := 0 }

/-! ## backend/app/tasks: session model -/

/-- The fields of the User model row the sync task reads and writes. -/
structure UserTableRow where
  id : ℤ
  last_email_sync : Option ℤ
deriving DecidableEq, Repr

/-- An EmailThread row with the attributes the batch task uses. -/
structure ThreadRow where
  id : ℕ
  user_id : ℤ
  provider_thread_id : String
  subject : String
  participants : List String
deriving DecidableEq, Repr

/-- A SentimentAnalysis row created by the AI insight task. -/
structure SentimentRow where
  email_id : ℕ
  sentiment : Option String
  confidence : ℚ
deriving DecidableEq, Repr

/-- An EmailInsight row created by the AI insight task. -/
structure InsightRow where
  email_id : Option ℕ
  user_id : ℤ
  insight_type : String
  confidence_score : ℚ
deriving DecidableEq, Repr

/-- The tables touched by the task modules. -/
structure DBState where
  users : List UserTableRow
  emails : List EmailRow
  threads : List ThreadRow
  sentiments : List SentimentRow
  insights : List InsightRow
deriving DecidableEq, Repr

/-- A SQLAlchemy session: the committed database, the pending view the
session queries (adds are flushed into it, matching the autoflush queries
the task code relies on), and the id sequence counter (sequences do not
roll back). -/
structure Session where
  committed : DBState
  pending : DBState
  next_id : ℕ
deriving DecidableEq, Repr

/-- db.commit(): make the pending state durable. -/
def Session.commit (s : Session) : Session := { s with committed := s.pending }

/-- db.rollback(): discard the pending changes. -/
def Session.rollback (s : Session) : Session := { s with pending := s.committed }

/-- The email dict handed to process_email_batch by the provider fetchers;
get defaults of the source are folded in, with received_at kept optional to
exercise its default of the current time. -/
structure EmailData where
  message_id : String
  subject : String
  sender : String
  recipient : String
  cc : List String
  bcc : List String
  thread_id : Option String
  received_at : Option ℤ
  is_read : Bool
  is_important : Bool
deriving DecidableEq, Repr

/-- email.thread_id = thread.id on the flushed email row. -/
def set_email_thread (st : Session) (email_id : ℕ) (thread_id : ℕ) : Session :=
  { st with pending := { st.pending with emails := st.pending.emails.map (fun r =>
      if r.id == email_id then { r with thread_id := some thread_id } else r) } }

/-- One iteration of the loop in process_email_batch: skip when a row with
the same (user_id, message_id) already exists in the session, otherwise add
and flush the email row, then look up or create its thread and link it.
Returns the new session and the flushed email id when one was stored. -/
def process_one_email (user_id : ℤ) (now : ℤ) (st : Session) (d : EmailData) :
    Session × Option ℕ :=
  if (st.pending.emails.find? (fun r =>
      r.user_id == user_id && r.message_id == d.message_id)).isSome then
    (st, none)
  else
    let email_id := st.next_id
    let email : EmailRow :=
      { id := email_id, user_id := user_id, message_id := d.message_id
        subject := d.subject, sender := d.sender, recipient := d.recipient
        cc := d.cc, bcc := d.bcc, thread_id := none
        received_at := d.received_at.getD now
        is_read := d.is_read, is_important := d.is_important
        ai_processed := false, ai_processed_at := none, category := none
        confidence_score := 0, importance_score := none, created_at := now }
    let st1 : Session :=
      { st with
        pending := { st.pending with emails := st.pending.emails ++ [email] }
        next_id := st.next_id + 1 }
    match d.thread_id with
    | none => (st1, some email_id)
    | some tid =>
        match st1.pending.threads.find? (fun t =>
            t.user_id == user_id && t.provider_thread_id == tid) with
        | some t => (set_email_thread st1 email_id t.id, some email_id)
        | none =>
            let thread : ThreadRow :=
              { id := st1.next_id, user_id := user_id, provider_thread_id := tid
                subject := email.subject
                participants := [email.sender, email.recipient] ++ email.cc ++ email.bcc }
            let st2 : Session :=
              { st1 with
                pending := { st1.pending with threads := st1.pending.threads ++ [thread] }
                next_id := st1.next_id + 1 }
            (set_email_thread st2 email_id thread.id, some email_id)

/-- The dict returned by process_email_batch. -/
structure BatchResult where
  user_id : ℤ
  processed_count : ℕ
  total_batch_size : ℕ
  status : String
deriving DecidableEq, Repr

/-- The body of the process_email_batch task: loop over the batch, commit,
and report. In this model the per-email work is total, so the inner
per-email except-and-continue and the outer rollback-and-retry branch are
unreachable; the trailing process_ai_insights.delay dispatch carries no
database effect and is not modelled. -/
def process_email_batch (st : Session) (user_id : ℤ) (emails_data : List EmailData)
    (provider : String) (now : ℤ) : Session × BatchResult :=
  let folded := emails_data.foldl (fun (acc : Session × List ℕ) d =>
    let next := process_one_email user_id now acc.1 d
    (next.1, acc.2 ++ next.2.toList)) (st, [])
  (folded.1.commit,
   { user_id := user_id, processed_count := folded.2.length
     total_batch_size := emails_data.length, status := "completed" })

/-- The insights dict returned by ai_service.analyze_email_content; none
models a falsy result. -/
structure InsightsData where
  confidence : ℚ
deriving DecidableEq, Repr

/-- The dict returned by ai_service.categorize_email. -/
structure CategorizeData where
  category : Option String
  confidence : ℚ
deriving DecidableEq, Repr

/-- The dict returned by ai_service.analyze_sentiment. -/
structure SentimentData where
  sentiment : Option String
  confidence : ℚ
deriving DecidableEq, Repr

/-- The AIService methods the AI tasks call, as oracles: each call may
raise or return its result dict. -/
structure AIMethods where
  analyze_email_content : EmailRow → Except PyErr (Option InsightsData)
  categorize_email : EmailRow → Except PyErr (Option CategorizeData)
  analyze_sentiment : EmailRow → Except PyErr (Option SentimentData)
  calculate_importance_score : EmailRow → Except PyErr ℚ

/-- Calling the AIService class with positional arguments beyond self.
AIService.__init__ in app/services/ai_service.py declares no parameter
besides self, so any argument — the db session the tasks pass — raises a
TypeError; with no argument it returns the service bound to the global
ai_engine. -/
def AIService_init (engine : AIMethods) (num_extra_args : ℕ) : Except PyErr AIMethods :=
  if num_extra_args = 0 then .ok engine else .error .typeError

/-- The outcome of one Celery task execution. -/
inductive TaskOutcome (ρ : Type) where
  | completed : ρ → TaskOutcome ρ
  | retry : ℕ → TaskOutcome ρ
  | max_retries_exceeded : TaskOutcome ρ
deriving DecidableEq, Repr

/-- self.retry(countdown): re-enqueue while retries remain, else raise
MaxRetriesExceededError. -/
def self_retry {ρ : Type} (retries max_retries countdown : ℕ) : TaskOutcome ρ :=
  if retries < max_retries then .retry countdown else .max_retries_exceeded

/-- Replace the email row with the given id by its image under f. -/
def update_email (st : Session) (email_id : ℕ) (f : EmailRow → EmailRow) : Session :=
  { st with pending := { st.pending with emails := st.pending.emails.map (fun r =>
      if r.id == email_id then f r else r) } }

/-- Append a sentiment row. -/
def add_sentiment (st : Session) (row : SentimentRow) : Session :=
  { st with pending := { st.pending with sentiments := st.pending.sentiments ++ [row] } }

/-- Append an insight row. -/
def add_insight (st : Session) (row : InsightRow) : Session :=
  { st with pending := { st.pending with insights := st.pending.insights ++ [row] } }

/-- One iteration of the per-email loop in process_ai_insights, with its
inner try/except-continue: a raise at any of the four service calls keeps
the mutations already applied and moves on. The accumulator carries the
session, processed_count and insights_created. -/
def analyze_one_email (engine : AIMethods) (user_id : ℤ) (now : ℤ)
    (acc : Session × ℕ × ℕ) (email : EmailRow) : Session × ℕ × ℕ :=
  let (st, processed_count, insights_created) := acc
  if email.ai_processed then acc
  else
    match engine.analyze_email_content email with
    | .error _ => acc
    | .ok insights =>
        match engine.categorize_email email with
        | .error _ => acc
        | .ok category_result =>
            let st1 := match category_result with
              | some cr => update_email st email.id (fun r =>
                  { r with category := cr.category, confidence_score := cr.confidence })
              | none => st
            match engine.analyze_sentiment email with
            | .error _ => (st1, processed_count, insights_created)
            | .ok sentiment_result =>
                let st2 := match sentiment_result with
                  | some sr => add_sentiment st1
                      { email_id := email.id, sentiment := sr.sentiment
                        confidence := sr.confidence }
                  | none => st1
                match engine.calculate_importance_score email with
                | .error _ => (st2, processed_count, insights_created)
                | .ok importance_score =>
                    let st3 := update_email st2 email.id (fun r =>
                      { r with importance_score := some importance_score })
                    let next := match insights with
                      | some ins =>
                          (add_insight st3
                            { email_id := some email.id, user_id := user_id
                              insight_type := "ai_analysis"
                              confidence_score := ins.confidence },
                           insights_created + 1)
                      | none => (st3, insights_created)
                    let st4 := update_email next.1 email.id (fun r =>
                      { r with ai_processed := true, ai_processed_at := some now })
                    (st4, processed_count + 1, next.2)

/-- The dict returned by process_ai_insights on completion; the
no_emails_found early return is folded into the same shape with zero
counts. -/
structure AIInsightsResult where
  user_id : ℤ
  total_emails : ℕ
  processed_count : ℕ
  insights_created : ℕ
  status : String
deriving DecidableEq, Repr

/-- The try-block body of the process_ai_insights task. Its first action
constructs AIService with the db session as one positional argument. The
trailing analyze_email_threads.delay dispatch carries no database effect
and is not modelled. -/
def process_ai_insights_body (engine : AIMethods) (st : Session) (user_id : ℤ)
    (email_ids : List ℕ) (now : ℤ) : Except PyErr (Session × AIInsightsResult) := do
  let ai_methods ← AIService_init engine 1
  let emails := st.pending.emails.filter (fun e =>
    email_ids.contains e.id && e.user_id == user_id)
  if emails.isEmpty then
    return (st, { user_id := user_id, total_emails := 0, processed_count := 0
                  insights_created := 0, status := "no_emails_found" })
  else
    let folded := emails.foldl (analyze_one_email ai_methods user_id now) (st, 0, 0)
    return (folded.1.commit,
      { user_id := user_id, total_emails := emails.length
        processed_count := folded.2.1, insights_created := folded.2.2
        status := "completed" })

/-- The process_ai_insights task: run the body; on any raise, roll the
session back and call self.retry with countdown 60 * 2 ** retries under
max_retries = 3. -/
def process_ai_insights (engine : AIMethods) (st : Session) (user_id : ℤ)
    (email_ids : List ℕ) (now : ℤ) (retries : ℕ) :
    TaskOutcome AIInsightsResult × Session :=
  match process_ai_insights_body engine st user_id email_ids now with
  | .ok (st2, res) => (.completed res, st2)
  | .error _ => (self_retry retries 3 (60 * 2 ^ retries), st.rollback)

/-- The EmailService fetchers called by sync_user_emails, as oracles over
the full_sync flag. -/
structure EmailServiceOracles where
  fetch_gmail_emails : Bool → Except PyErr (List EmailData)
  fetch_outlook_emails : Bool → Except PyErr (List EmailData)
  fetch_imap_emails : Bool → Except PyErr (List EmailData)

/-- The dict returned by sync_user_emails. -/
structure SyncResult where
  user_id : ℤ
  total_emails : ℕ
  processed_batches : ℕ
  status : String
deriving DecidableEq, Repr

/-- The try-block body of the sync_user_emails task: look the user up
(raising when absent), fetch from the provider, enqueue the batches of 50
through process_email_batch.delay (returned as the queued list), stamp
last_email_sync and commit. -/
def sync_user_emails_body (svc : EmailServiceOracles) (st : Session) (user_id : ℤ)
    (provider : String) (full_sync : Bool) (now : ℤ) :
    Except PyErr (Session × List (ℤ × List EmailData × String) × SyncResult) := do
  match st.pending.users.find? (fun u => u.id == user_id) with
  | none => .error (.exception ("User " ++ toString user_id ++ " not found"))
  | some _ => do
      let emails_data ←
        if provider = "gmail" then svc.fetch_gmail_emails full_sync
        else if provider = "outlook" then svc.fetch_outlook_emails full_sync
        else svc.fetch_imap_emails full_sync
      let queued := (emails_data.toChunks 50).map (fun b => (user_id, b, provider))
      let st1 : Session :=
        { st with pending := { st.pending with users := st.pending.users.map (fun u =>
            if u.id == user_id then { u with last_email_sync := some now } else u) } }
      return (st1.commit, queued,
        { user_id := user_id, total_emails := emails_data.length
          processed_batches := (emails_data.length + 50 - 1) / 50
          status := "completed" })

/-- The sync_user_emails task: run the body; on any raise, call self.retry
with countdown 60 * 2 ** retries under max_retries = 3 (no rollback in this
except branch). -/
def sync_user_emails (svc : EmailServiceOracles) (st : Session) (user_id : ℤ)
    (provider : String) (full_sync : Bool) (now : ℤ) (retries : ℕ) :
    TaskOutcome SyncResult × Session × List (ℤ × List EmailData × String) :=
  match sync_user_emails_body svc st user_id provider full_sync now with
  | .ok (st2, queued, res) => (.completed res, st2, queued)
  | .error _ => (self_retry retries 3 (60 * 2 ^ retries), st, [])

/-- No two email rows share the (user_id, message_id) key. -/
def email_key_nodup (l : List EmailRow) : Prop :=
  l.Pairwise (fun a b => ¬(a.user_id = b.user_id ∧ a.message_id = b.message_id))

/-- A concrete email dict delivered by a provider. -/
def c1_data : EmailData :=
  { message_id := "m1", subject := "hello", sender := "a@x", recipient := "b@x"
    cc := [], bcc := [], thread_id := none, received_at := some 5
    is_read := false, is_important := false }

/-- The empty database. -/
def empty_db : DBState := ⟨[], [], [], [], []⟩

/-- Concrete fetcher oracles that return no emails. -/
def svc0 : EmailServiceOracles :=
  ⟨fun _ => .ok [], fun _ => .ok [], fun _ => .ok []⟩

/-- Concrete AI method oracles. -/
def engine0 : AIMethods :=
  ⟨fun _ => .ok none, fun _ => .ok none, fun _ => .ok none, fun _ => .ok (1/2)⟩

/-! ## Claim theorems and helper lemmas -/

/-- C4: email classification and sentiment analysis never propagate an
exception and return a single fixed fallback regardless of the failure
class: whenever the body of classify_email raises it returns category
unknown with confidence 0.0, and whenever the body of analyze_sentiment
raises it returns sentiment neutral with confidence 0.0. -/
theorem ai_fallbacks_on_exception
    (api_response : Except PyErr String)
    (json_loads : String → Except PyErr ClassificationResult)
    (analyzer_response : Except PyErr SentimentRaw) :
    ((∃ e, (do
        let content ← api_response
        json_loads content : Except PyErr ClassificationResult) = .error e) →
      classify_email api_response json_loads = { category := "unknown", confidence := 0 }) ∧
    ((∃ e, analyzer_response = .error e) →
      analyze_sentiment analyzer_response =
        { sentiment := "neutral", confidence := 0, raw_result := none }) := by
  constructor
  · rintro ⟨e, he⟩
    simp only [classify_email]
    rw [he]
  · rintro ⟨e, he⟩
    simp only [analyze_sentiment]
    rw [he]

/-- Witness for C4 at concrete failing oracles. -/
theorem ai_fallbacks_on_exception_witness :
    classify_email (.error .typeError) (fun _ => .ok ⟨"work", 1⟩) =
      { category := "unknown", confidence := 0 } ∧
    analyze_sentiment (.error (.exception "pipeline down")) =
      { sentiment := "neutral", confidence := 0, raw_result := none } :=
  ⟨(ai_fallbacks_on_exception (.error .typeError) (fun _ => .ok ⟨"work", 1⟩)
      (.error (.exception "pipeline down"))).1 ⟨.typeError, rfl⟩,
   (ai_fallbacks_on_exception (.error .typeError) (fun _ => .ok ⟨"work", 1⟩)
      (.error (.exception "pipeline down"))).2 ⟨.exception "pipeline down", rfl⟩⟩

/-- C9: calculate_importance_score always returns a value in [0, 1]: on
success the parsed score is clamped with max 0 (min 1 score), on any
exception the fallback 0.5 is returned, and both lie in the unit interval. -/
theorem calculate_importance_score_in_unit_interval (model_response : Except PyErr ℚ) :
    0 ≤ calculate_importance_score model_response ∧
      calculate_importance_score model_response ≤ 1 := by
  cases model_response with
  | ok score =>
      refine ⟨le_max_left 0 _, max_le (by norm_num) (min_le_left 1 score)⟩
  | error e =>
      constructor <;> norm_num [calculate_importance_score]

/-- C10: identify_unsubscribe_candidates returns at most 10 candidates,
sorted in non-increasing confidence, every confidence at most 0.9, and every
candidate comes from a sender with strictly more than 5 newsletter or
promotional emails and an open rate strictly below 0.1; on any exception it
returns the empty list. -/
theorem identify_unsubscribe_candidates_spec (emails : List EmailDict) (raised : Bool) :
    (raised = true → identify_unsubscribe_candidates emails raised = []) ∧
    (identify_unsubscribe_candidates emails raised).length ≤ 10 ∧
    (identify_unsubscribe_candidates emails raised).Sorted confidence_desc ∧
    (∀ c ∈ identify_unsubscribe_candidates emails raised,
      c.confidence ≤ 9/10 ∧
      c.email_count = sender_email_count (emails.filter is_newsletter_or_promotional) c.sender ∧
      5 < c.email_count ∧
      (sender_opened_count (emails.filter is_newsletter_or_promotional) c.sender : ℚ) /
        (c.email_count : ℚ) < 1/10) := by
  cases raised with
  | true =>
      refine ⟨fun _ => rfl, ?_, ?_, ?_⟩ <;>
        simp [identify_unsubscribe_candidates, List.Sorted]
  | false =>
      rw [identify_unsubscribe_candidates]
      simp only [Bool.false_eq_true, if_false]
      set nl := emails.filter is_newsletter_or_promotional with hnl
      by_cases hemp : nl.isEmpty
      · simp [hemp, List.Sorted]
      · simp only [hemp, if_false]
        set cands := ((nl.map (fun e => e.sender)).dedup).filterMap (make_candidate nl)
          with hcands
        refine ⟨fun h => absurd h (by simp), List.length_take_le 10 _, ?_, ?_⟩
        · exact ((List.sorted_insertionSort confidence_desc cands).sublist
            (List.take_sublist 10 _))
        · intro c hc
          have hc2 : c ∈ cands := by
            have h1 : c ∈ cands.insertionSort confidence_desc :=
              (List.take_sublist 10 _).subset hc
            exact (List.perm_insertionSort confidence_desc cands).mem_iff.mp h1
          rw [hcands] at hc2
          rcases List.mem_filterMap.mp hc2 with ⟨s, _, hmk⟩
          rw [make_candidate] at hmk
          by_cases hcond : sender_email_count nl s > 5 ∧
              (if sender_email_count nl s > 0 then
                (sender_opened_count nl s : ℚ) / (sender_email_count nl s : ℚ) else 0) < 1/10
          · rw [if_pos hcond] at hmk
            have hcnt0 : sender_email_count nl s > 0 := lt_trans (by norm_num) hcond.1
            have hrate := hcond.2
            rw [if_pos hcnt0] at hrate
            injection hmk with hmk
            subst hmk
            refine ⟨min_le_left _ _, rfl, hcond.1, ?_⟩
            rw [if_pos hcnt0]
            exact hrate
          · rw [if_neg hcond] at hmk
            exact absurd hmk (by simp)

/-- Evaluation of identify_unsubscribe_candidates on the concrete inbox. -/
theorem c10_eval : identify_unsubscribe_candidates c10_input false =
    [{ sender := "a", email_count := 6, open_rate := 0, confidence := 3/10 }] := by
  simp only [identify_unsubscribe_candidates, c10_input]
  simp [is_newsletter_or_promotional]
  norm_num [make_candidate, sender_email_count, sender_opened_count, List.filterMap_cons,
    List.insertionSort, List.orderedInsert, min_def]

/-- Witness for C10 at the concrete inbox. -/
theorem identify_unsubscribe_candidates_spec_witness :
    identify_unsubscribe_candidates c10_input true = [] ∧
    ({ sender := "a", email_count := 6, open_rate := 0, confidence := 3/10 } :
        UnsubscribeCandidate).confidence ≤ 9/10 ∧
    5 < ({ sender := "a", email_count := 6, open_rate := 0, confidence := 3/10 } :
        UnsubscribeCandidate).email_count := by
  have h1 := (identify_unsubscribe_candidates_spec c10_input true).1 rfl
  have hmem : ({ sender := "a", email_count := 6, open_rate := 0, confidence := 3/10 } :
      UnsubscribeCandidate) ∈ identify_unsubscribe_candidates c10_input false := by
    rw [c10_eval]
    exact List.mem_singleton.mpr rfl
  have h4 := (identify_unsubscribe_candidates_spec c10_input false).2.2.2 _ hmem
  exact ⟨h1, h4.1, h4.2.2.1⟩

/-- C3: check_subscription_limits raises HTTP 429 exactly when the tier has
a finite email limit that emails_processed has reached or a finite API-call
limit that api_calls_this_month has reached, with the limits of the claim;
enterprise users are never rejected; an unrecognized tier is treated as
free_trial; otherwise the user is returned unchanged. -/
theorem check_subscription_limits_spec (u : UserRec) :
    ((∃ e, check_subscription_limits u = .error e ∧ e.status_code = 429) ↔
      ((∃ L, spec_email_limit u.subscription_tier = some L ∧ L ≤ u.emails_processed) ∨
       (∃ L, spec_api_limit u.subscription_tier = some L ∧ L ≤ u.api_calls_this_month))) ∧
    (u.subscription_tier = "enterprise" → check_subscription_limits u = .ok u) ∧
    (u.subscription_tier ∉ (["free_trial", "starter", "professional", "enterprise"] :
        List String) →
      subscription_limits u.subscription_tier = subscription_limits "free_trial") ∧
    (¬ ((∃ L, spec_email_limit u.subscription_tier = some L ∧ L ≤ u.emails_processed) ∨
        (∃ L, spec_api_limit u.subscription_tier = some L ∧ L ≤ u.api_calls_this_month)) →
      check_subscription_limits u = .ok u) := by
  obtain ⟨tier, ep, ac⟩ := u
  refine ⟨?_, ?_, ?_, ?_⟩
  · by_cases h1 : tier = "free_trial" <;> by_cases h2 : tier = "starter" <;>
      by_cases h3 : tier = "professional" <;> by_cases h4 : tier = "enterprise" <;>
      simp_all [check_subscription_limits, subscription_limits, spec_email_limit,
        spec_api_limit] <;>
      split_ifs <;> simp_all
  · intro h
    simp_all [check_subscription_limits, subscription_limits]
  · intro h
    simp only [List.mem_cons, List.mem_singleton, not_or] at h
    obtain ⟨h1, h2, h3, h4⟩ := h
    simp_all [check_subscription_limits, subscription_limits]
  · intro h
    by_cases h1 : tier = "free_trial" <;> by_cases h2 : tier = "starter" <;>
      by_cases h3 : tier = "professional" <;> by_cases h4 : tier = "enterprise" <;>
      simp_all [check_subscription_limits, subscription_limits, spec_email_limit,
        spec_api_limit] <;>
      split_ifs <;> (first | omega | (simp_all; try omega))

/-- Witness for C3: an enterprise user far over every finite limit passes,
an unrecognized tier gets the free_trial limits, and a starter user under
its limits is returned unchanged. -/
theorem check_subscription_limits_spec_witness :
    check_subscription_limits ⟨"enterprise", 999999, 999999⟩ =
      .ok ⟨"enterprise", 999999, 999999⟩ ∧
    subscription_limits "custom" = subscription_limits "free_trial" ∧
    check_subscription_limits ⟨"starter", 0, 0⟩ = .ok ⟨"starter", 0, 0⟩ :=
  ⟨(check_subscription_limits_spec ⟨"enterprise", 999999, 999999⟩).2.1 rfl,
   (check_subscription_limits_spec ⟨"custom", 0, 0⟩).2.2.1 (by simp),
   (check_subscription_limits_spec ⟨"starter", 0, 0⟩).2.2.2
     (by simp [spec_email_limit, spec_api_limit])⟩

/-- C7: handle_webhook_event never propagates an exception: it returns True
for every event whose dispatch completes without raising — in particular an
event of unrecognized type is silently ignored with no state change — and
returns False for every event whose handling raises. -/
theorem handle_webhook_event_spec {σ : Type}
    (h1 h2 h3 h4 : σ → Except PyErr σ) (event_type : String) (st : σ) :
    ((handle_webhook_event h1 h2 h3 h4 event_type st).1 = true ↔
      ∃ st2, webhook_dispatch h1 h2 h3 h4 event_type st = .ok st2) ∧
    (event_type ∉ (["customer.subscription.updated", "customer.subscription.deleted",
        "invoice.payment_succeeded", "invoice.payment_failed"] : List String) →
      handle_webhook_event h1 h2 h3 h4 event_type st = (true, st)) ∧
    (∀ st2, webhook_dispatch h1 h2 h3 h4 event_type st = .ok st2 →
      handle_webhook_event h1 h2 h3 h4 event_type st = (true, st2)) ∧
    (∀ e, webhook_dispatch h1 h2 h3 h4 event_type st = .error e →
      handle_webhook_event h1 h2 h3 h4 event_type st = (false, st)) := by
  refine ⟨?_, ?_, ?_, ?_⟩
  · constructor
    · intro h
      rw [handle_webhook_event] at h
      cases hd : webhook_dispatch h1 h2 h3 h4 event_type st with
      | ok st2 => exact ⟨st2, rfl⟩
      | error e => rw [hd] at h; simp at h
    · rintro ⟨st2, hd⟩
      rw [handle_webhook_event, hd]
  · intro h
    simp only [List.mem_cons, List.mem_singleton, not_or] at h
    obtain ⟨n1, n2, n3, n4⟩ := h
    rw [handle_webhook_event, webhook_dispatch]
    simp [n1, n2, n3, n4]
  · intro st2 hd
    rw [handle_webhook_event, hd]
  · intro e hd
    rw [handle_webhook_event, hd]

/-- Witness for C7 over a concrete counter state: an unrecognized event type
is ignored, a succeeding handler commits its state, a raising handler yields
False with the original state. -/
theorem handle_webhook_event_spec_witness :
    handle_webhook_event (σ := ℕ) (fun n => .ok (n + 1)) (fun n => .ok n)
      (fun n => .ok n) (fun _ => .error .typeError) "account.updated" 0 = (true, 0) ∧
    handle_webhook_event (σ := ℕ) (fun n => .ok (n + 1)) (fun n => .ok n)
      (fun n => .ok n) (fun _ => .error .typeError) "customer.subscription.updated" 0 =
      (true, 1) ∧
    handle_webhook_event (σ := ℕ) (fun n => .ok (n + 1)) (fun n => .ok n)
      (fun n => .ok n) (fun _ => .error .typeError) "invoice.payment_failed" 0 =
      (false, 0) :=
  ⟨(handle_webhook_event_spec (fun n => .ok (n + 1)) (fun n => .ok n) (fun n => .ok n)
      (fun _ => .error .typeError) "account.updated" 0).2.1 (by simp),
   (handle_webhook_event_spec (fun n => .ok (n + 1)) (fun n => .ok n) (fun n => .ok n)
      (fun _ => .error .typeError) "customer.subscription.updated" 0).2.2.1 1 rfl,
   (handle_webhook_event_spec (fun n => .ok (n + 1)) (fun n => .ok n) (fun n => .ok n)
      (fun _ => .error .typeError) "invoice.payment_failed" 0).2.2.2 .typeError rfl⟩

/-- Counterexample for C6 as stated: create_subscription does enforce a
derived cross-record condition beyond the schema constraints — with an
existing active subscription row for the user it rejects the request with
HTTP 400, while the identical request against a database without that row
succeeds, so the outcome is gated on other records by handler code. -/
theorem create_subscription_enforces_cross_record_rule :
    create_subscription [⟨1, "active"⟩] 1 ⟨true, none, "sub_1", none⟩ =
      .error { status_code := 400, detail := "User already has an active subscription" } ∧
    create_subscription [] 1 ⟨true, none, "sub_1", none⟩ =
      .ok { success := true, subscription := "sub_1", client_secret := none,
            message := "Subscription created successfully" } := by
  constructor <;> rfl

/-- C6 amended: the route rejects with HTTP 400 exactly the requests of
users holding an active subscription row; for every other database state the
handler behaves as on an empty table, enforcing no further condition on the
stored records. -/
theorem create_subscription_spec (db : List SubscriptionRow) (uid : ℤ)
    (pr : PaymentOutcome) :
    ((∃ s ∈ db, s.user_id = uid ∧ s.status = "active") →
      create_subscription db uid pr =
        .error { status_code := 400, detail := "User already has an active subscription" }) ∧
    ((∀ s ∈ db, ¬(s.user_id = uid ∧ s.status = "active")) →
      create_subscription db uid pr = create_subscription [] uid pr) := by
  constructor
  · rintro ⟨s, hs, hu, hst⟩
    have hsome : (db.find? (fun s => s.user_id == uid && s.status == "active")).isSome :=
      List.find?_isSome.mpr ⟨s, hs, by simp [hu, hst]⟩
    rw [create_subscription, if_pos hsome]
  · intro h
    have hnone : db.find? (fun s => s.user_id == uid && s.status == "active") = none := by
      rw [List.find?_eq_none]
      intro x hx
      have := h x hx
      simp only [Bool.and_eq_true, beq_iff_eq]
      intro hc
      exact this hc
    rw [create_subscription, create_subscription, hnone]
    rfl

/-- Witness for C6 amended at concrete database states. -/
theorem create_subscription_spec_witness :
    create_subscription [⟨2, "active"⟩] 2 ⟨true, none, "sub_2", none⟩ =
      .error { status_code := 400, detail := "User already has an active subscription" } ∧
    create_subscription [⟨2, "active"⟩, ⟨1, "canceled"⟩] 1 ⟨true, none, "sub_1", none⟩ =
      create_subscription [] 1 ⟨true, none, "sub_1", none⟩ :=
  ⟨(create_subscription_spec [⟨2, "active"⟩] 2 ⟨true, none, "sub_2", none⟩).1
     ⟨⟨2, "active"⟩, by simp, rfl, rfl⟩,
   (create_subscription_spec [⟨2, "active"⟩, ⟨1, "canceled"⟩] 1
      ⟨true, none, "sub_1", none⟩).2 (by decide)⟩

/-- Counting the elements mapping to a key equals counting that key among
the mapped values. -/
theorem countP_key_eq_count {α : Type} (f : α → ℤ) (l : List α) (k : ℤ) :
    l.countP (fun e => f e == k) = (l.map f).count k := by
  rw [List.count_eq_countP, List.countP_map]
  rfl

/-- Summing the per-key counts over any permutation of the deduplicated key
list recovers the length of the list. -/
theorem sum_bucket_counts_eq_length {α : Type} (f : α → ℤ) (l : List α)
    (keys : List ℤ) (hperm : keys.Perm (l.map f).dedup) :
    (keys.map (fun k => l.countP (fun e => f e == k))).sum = l.length := by
  rw [(hperm.map (fun k => l.countP (fun e => f e == k))).sum_eq]
  have h1 : ((l.map f).dedup.map (fun k => l.countP (fun e => f e == k))) =
      ((l.map f).dedup.map (fun k => (l.map f).count k)) := by
    exact List.map_congr_left (fun k _ => countP_key_eq_count f l k)
  rw [h1]
  have h2 := List.sum_map_count_dedup_eq_length (l.map f)
  simp only [h2, List.length_map]

/-- The foldl that implements Python max keeps an element of the traversal
whose count dominates the accumulator and every traversed element. -/
theorem foldl_peak_spec (xs : List TimeBucket) (x : TimeBucket) :
    ((xs.foldl (fun acc y => if acc.count < y.count then y else acc) x) = x ∨
      (xs.foldl (fun acc y => if acc.count < y.count then y else acc) x) ∈ xs) ∧
    x.count ≤ (xs.foldl (fun acc y => if acc.count < y.count then y else acc) x).count ∧
    ∀ q ∈ xs, q.count ≤ (xs.foldl (fun acc y => if acc.count < y.count then y else acc) x).count := by
  induction xs generalizing x with
  | nil => exact ⟨Or.inl rfl, le_refl _, fun q hq => absurd hq (List.not_mem_nil q)⟩
  | cons y ys ih =>
      obtain ⟨hmem, hacc, hall⟩ := ih (if x.count < y.count then y else x)
      simp only [List.foldl_cons]
      have hx : x.count ≤ (if x.count < y.count then y else x).count := by
        split_ifs with h
        · exact le_of_lt h
        · exact le_refl _
      have hy : y.count ≤ (if x.count < y.count then y else x).count := by
        split_ifs with h
        · exact le_refl _
        · exact le_of_not_lt h
      refine ⟨?_, le_trans hx hacc, ?_⟩
      · rcases hmem with h | h
        · rw [h]
          split_ifs with hc
          · exact Or.inr (List.mem_cons_self y ys)
          · exact Or.inl rfl
        · exact Or.inr (List.mem_cons_of_mem y h)
      · intro q hq
        rcases List.mem_cons.mp hq with h | h
        · rw [h]
          exact le_trans hy hacc
        · exact hall q h

/-- peak_of of a nonempty series is an entry of maximal count. -/
theorem peak_of_spec (l : List TimeBucket) (h : l ≠ []) :
    ∃ p, peak_of l = some p ∧ p ∈ l ∧ ∀ q ∈ l, q.count ≤ p.count := by
  cases l with
  | nil => exact absurd rfl h
  | cons x xs =>
      obtain ⟨hmem, hacc, hall⟩ := foldl_peak_spec xs x
      refine ⟨_, rfl, ?_, ?_⟩
      · rcases hmem with h1 | h1
        · rw [h1]; exact List.mem_cons_self x xs
        · exact List.mem_cons_of_mem x h1
      · intro q hq
        rcases List.mem_cons.mp hq with h1 | h1
        · rw [h1]; exact hacc
        · exact hall q h1

/-- C8 amended: for every user and date range, get_email_volume_analytics
returns total_emails equal to the number of the user filtered emails with
created_at in the closed range, a time_series sorted by bucket key ascending
whose counts sum to total_emails, average_per_day equal to total_emails
divided by the day count of the range (1 substituted for a zero-day range)
rounded to two decimal places, and a peak_day of maximal bucket count; with
no matching emails it returns total 0, empty series, average 0, no peak. -/
theorem get_email_volume_analytics_spec (db : List EmailRow)
    (user_id start_date end_date : ℤ) (bucket_key : ℤ → ℤ) :
    (db.filter (email_in_range user_id start_date end_date) = [] →
      get_email_volume_analytics db user_id start_date end_date bucket_key =
        { total_emails := 0, time_series := [], average_per_day := 0, peak_day := none }) ∧
    (db.filter (email_in_range user_id start_date end_date) ≠ [] →
      (get_email_volume_analytics db user_id start_date end_date bucket_key).total_emails =
        (db.filter (email_in_range user_id start_date end_date)).length ∧
      (get_email_volume_analytics db user_id start_date end_date bucket_key).time_series.Sorted
        (fun a b => a.date ≤ b.date) ∧
      ((get_email_volume_analytics db user_id start_date end_date bucket_key).time_series.map
        (fun p => p.count)).sum =
        (db.filter (email_in_range user_id start_date end_date)).length ∧
      (get_email_volume_analytics db user_id start_date end_date bucket_key).average_per_day =
        py_round2 (((db.filter (email_in_range user_id start_date end_date)).length : ℚ) /
          (days_diff_or_one start_date end_date : ℚ)) ∧
      ∃ p, (get_email_volume_analytics db user_id start_date end_date bucket_key).peak_day =
          some p ∧
        p ∈ (get_email_volume_analytics db user_id start_date end_date bucket_key).time_series ∧
        ∀ q ∈ (get_email_volume_analytics db user_id start_date end_date
            bucket_key).time_series,
          q.count ≤ p.count) := by
  constructor
  · intro h
    simp [get_email_volume_analytics, h]
  · intro h
    have hne : (db.filter (email_in_range user_id start_date end_date)).isEmpty = false := by
      simpa [List.isEmpty_iff] using h
    simp only [get_email_volume_analytics, hne, Bool.false_eq_true, if_false]
    have hperm := List.perm_insertionSort (α := ℤ) (· ≤ ·)
      ((db.filter (email_in_range user_id start_date end_date)).map
        (fun e => bucket_key e.created_at)).dedup
    refine ⟨by trivial, ?_, ?_, by trivial, ?_⟩
    · have hs := List.sorted_insertionSort (α := ℤ) (· ≤ ·)
        ((db.filter (email_in_range user_id start_date end_date)).map
          (fun e => bucket_key e.created_at)).dedup
      exact List.pairwise_map.mpr hs
    · rw [List.map_map]
      exact sum_bucket_counts_eq_length (fun e => bucket_key e.created_at)
        (db.filter (email_in_range user_id start_date end_date)) _ hperm
    · apply peak_of_spec
      intro hnil
      rw [List.map_eq_nil_iff] at hnil
      rw [hnil] at hperm
      have hd := hperm.symm.eq_nil
      rw [List.dedup_eq_nil, List.map_eq_nil_iff] at hd
      exact h hd

/-- Counterexample for C8 as stated: over a three-day range holding one
email, the returned average_per_day is round(1/3, 2) = 0.33, which is not
total_emails divided by the number of days in the range. -/
theorem get_email_volume_analytics_average_rounded :
    (get_email_volume_analytics [c8_email] 1 0 259200 daily_bucket).total_emails = 1 ∧
    days_diff_or_one 0 259200 = 3 ∧
    (get_email_volume_analytics [c8_email] 1 0 259200 daily_bucket).average_per_day =
      33/100 ∧
    (get_email_volume_analytics [c8_email] 1 0 259200 daily_bucket).average_per_day ≠
      ((get_email_volume_analytics [c8_email] 1 0 259200 daily_bucket).total_emails : ℚ) /
        (days_diff_or_one 0 259200 : ℚ) := by
  have hfloor : ⌊((1:ℚ)/3 * 100)⌋ = 33 := by
    rw [Int.floor_eq_iff]
    norm_num
  have heval : get_email_volume_analytics [c8_email] 1 0 259200 daily_bucket =
      { total_emails := 1, time_series := [⟨0, 1⟩], average_per_day := 33/100,
        peak_day := some ⟨0, 1⟩ } := by
    rw [get_email_volume_analytics]
    norm_num [c8_email, email_in_range, daily_bucket, days_diff_or_one,
      List.insertionSort, List.orderedInsert, peak_of, py_round2, py_round_half_even,
      hfloor, Int.fdiv]
  rw [heval]
  refine ⟨rfl, by decide, rfl, ?_⟩
  norm_num [days_diff_or_one, Int.fdiv]

/-- Witness for C8 amended, at an empty database and at the one-email
database of the counterexample. -/
theorem get_email_volume_analytics_spec_witness :
    get_email_volume_analytics [] 1 0 259200 daily_bucket =
      { total_emails := 0, time_series := [], average_per_day := 0, peak_day := none } ∧
    (get_email_volume_analytics [c8_email] 1 0 259200 daily_bucket).total_emails =
      ([c8_email].filter (email_in_range 1 0 259200)).length := by
  refine ⟨(get_email_volume_analytics_spec [] 1 0 259200 daily_bucket).1 rfl,
    ((get_email_volume_analytics_spec [c8_email] 1 0 259200 daily_bucket).2 ?_).1⟩
  simp [email_in_range, c8_email]

/-- The body of process_ai_insights raises a TypeError at its first
statement, for every database state and input: AIService is called with the
db session as a positional argument while its constructor accepts none. -/
theorem process_ai_insights_body_raises (engine : AIMethods) (st : Session)
    (user_id : ℤ) (email_ids : List ℕ) (now : ℤ) :
    process_ai_insights_body engine st user_id email_ids now = .error .typeError := by
  rw [process_ai_insights_body]
  rfl

/-- C2: every invocation of the process_ai_insights task raises before
analyzing any email — the AIService construction with a session argument is
a TypeError — so the task never commits anything and always takes the
rollback-and-retry branch. -/
theorem process_ai_insights_constructor_type_error (engine : AIMethods) (st : Session)
    (user_id : ℤ) (email_ids : List ℕ) (now : ℤ) (retries : ℕ) :
    process_ai_insights_body engine st user_id email_ids now = .error .typeError ∧
    process_ai_insights engine st user_id email_ids now retries =
      (self_retry retries 3 (60 * 2 ^ retries), st.rollback) ∧
    (process_ai_insights engine st user_id email_ids now retries).2.committed =
      st.committed ∧
    (process_ai_insights engine st user_id email_ids now retries).2.pending =
      st.committed := by
  have hbody := process_ai_insights_body_raises engine st user_id email_ids now
  refine ⟨hbody, ?_, ?_, ?_⟩ <;> rw [process_ai_insights, hbody] <;> rfl

/-- A rowwise update that keeps user_id and message_id preserves key
uniqueness. -/
theorem email_key_nodup_map (l : List EmailRow) (f : EmailRow → EmailRow)
    (hf : ∀ r, (f r).user_id = r.user_id ∧ (f r).message_id = r.message_id)
    (h : email_key_nodup l) : email_key_nodup (l.map f) := by
  rw [email_key_nodup, List.pairwise_map]
  refine h.imp ?_
  intro a b hab hc
  exact hab ⟨by rw [← (hf a).1, ← (hf b).1]; exact hc.1,
             by rw [← (hf a).2, ← (hf b).2]; exact hc.2⟩

/-- Appending a row whose key clashes with no existing row preserves key
uniqueness. -/
theorem email_key_nodup_append_one (l : List EmailRow) (x : EmailRow)
    (h : email_key_nodup l)
    (hx : ∀ r ∈ l, ¬(r.user_id = x.user_id ∧ r.message_id = x.message_id)) :
    email_key_nodup (l ++ [x]) := by
  rw [email_key_nodup, List.pairwise_append]
  refine ⟨h, List.pairwise_singleton _ _, ?_⟩
  intro a ha b hb
  rw [List.mem_singleton] at hb
  subst hb
  exact hx a ha

/-- One loop iteration of process_email_batch preserves key uniqueness of
the email table: it only stores the incoming email after the existence
check for its (user_id, message_id) came back empty. -/
theorem process_one_email_keeps_nodup (user_id now : ℤ) (st : Session) (d : EmailData)
    (h : email_key_nodup st.pending.emails) :
    email_key_nodup (process_one_email user_id now st d).1.pending.emails := by
  rw [process_one_email]
  by_cases hex : (st.pending.emails.find? (fun r =>
      r.user_id == user_id && r.message_id == d.message_id)).isSome
  · rw [if_pos hex]
    exact h
  · rw [if_neg hex]
    have hfind : st.pending.emails.find? (fun r =>
        r.user_id == user_id && r.message_id == d.message_id) = none := by
      cases hf : st.pending.emails.find? (fun r =>
          r.user_id == user_id && r.message_id == d.message_id) with
      | none => rfl
      | some t => rw [hf] at hex; simp at hex
    have hx : ∀ r ∈ st.pending.emails,
        ¬(r.user_id = user_id ∧ r.message_id = d.message_id) := by
      intro r hr
      have := List.find?_eq_none.mp hfind r hr
      simpa using this
    have happ : email_key_nodup (st.pending.emails ++
        [{ id := st.next_id, user_id := user_id, message_id := d.message_id
           subject := d.subject, sender := d.sender, recipient := d.recipient
           cc := d.cc, bcc := d.bcc, thread_id := none
           received_at := d.received_at.getD now
           is_read := d.is_read, is_important := d.is_important
           ai_processed := false, ai_processed_at := none, category := none
           confidence_score := 0, importance_score := none, created_at := now }]) :=
      email_key_nodup_append_one _ _ h (fun r hr => hx r hr)
    cases hd : d.thread_id with
    | none =>
        dsimp only
        exact happ
    | some tid =>
        dsimp only
        cases hft : (st.pending.threads.find? (fun t =>
            t.user_id == user_id && t.provider_thread_id == tid)) with
        | some t =>
            dsimp only [set_email_thread]
            refine email_key_nodup_map _ _ ?_ happ
            intro r
            split_ifs <;> exact ⟨rfl, rfl⟩
        | none =>
            dsimp only [set_email_thread]
            refine email_key_nodup_map _ _ ?_ happ
            intro r
            split_ifs <;> exact ⟨rfl, rfl⟩

/-- C1 amended: process_email_batch stores only the batch emails whose
(user_id, message_id) is not already present — the existence check skips
duplicates — so the email table never acquires two rows with the same
(user_id, message_id), and the final state is committed. -/
theorem process_email_batch_no_duplicate_keys (st : Session) (user_id : ℤ)
    (emails_data : List EmailData) (provider : String) (now : ℤ)
    (h : email_key_nodup st.pending.emails) :
    email_key_nodup
      (process_email_batch st user_id emails_data provider now).1.pending.emails ∧
    email_key_nodup
      (process_email_batch st user_id emails_data provider now).1.committed.emails ∧
    (process_email_batch st user_id emails_data provider now).1.committed =
      (process_email_batch st user_id emails_data provider now).1.pending := by
  have hinv : ∀ (l : List EmailData) (acc : Session × List ℕ),
      email_key_nodup acc.1.pending.emails →
      email_key_nodup ((l.foldl (fun (acc : Session × List ℕ) d =>
        let next := process_one_email user_id now acc.1 d
        (next.1, acc.2 ++ next.2.toList)) acc).1.pending.emails) := by
    intro l
    induction l with
    | nil => exact fun acc hacc => hacc
    | cons d ds ih =>
        intro acc hacc
        simp only [List.foldl_cons]
        exact ih _ (process_one_email_keeps_nodup user_id now acc.1 d hacc)
  exact ⟨hinv emails_data (st, []) h, hinv emails_data (st, []) h, rfl⟩

/-- Counterexample for C1 as stated: delivering the same one-email batch
twice stores a single row for (user 1, message m1), not two — the second
run skips the email entirely (processed_count 0), so re-delivery does not
yield duplicate Email rows. -/
theorem process_email_batch_skips_existing :
    ((process_email_batch
        (process_email_batch ⟨empty_db, empty_db, 0⟩ 1 [c1_data] "gmail" 10).1
        1 [c1_data] "gmail" 20).1.committed.emails.countP
      (fun r => r.user_id == 1 && r.message_id == "m1")) = 1 ∧
    (process_email_batch
        (process_email_batch ⟨empty_db, empty_db, 0⟩ 1 [c1_data] "gmail" 10).1
        1 [c1_data] "gmail" 20).2.processed_count = 0 := by
  constructor <;> rfl

/-- Witness for C1 amended, at the empty database and the concrete batch. -/
theorem process_email_batch_no_duplicate_keys_witness :
    email_key_nodup
      ((process_email_batch ⟨empty_db, empty_db, 0⟩ 1 [c1_data] "gmail" 10).1.pending.emails) :=
  (process_email_batch_no_duplicate_keys ⟨empty_db, empty_db, 0⟩ 1 [c1_data] "gmail" 10
    (by simp [empty_db, email_key_nodup])).1

/-- C5: whenever the body of sync_user_emails or of process_ai_insights
raises, the task retries with countdown 60 * 2 ** retries — doubling per
attempt — under max_retries 3, the same policy for every failure, and the
AI-insight task rolls its session back before retrying, so nothing of the
failed batch is committed. -/
theorem task_retry_backoff
    (svc : EmailServiceOracles) (engine : AIMethods) (st st2 : Session) (user_id : ℤ)
    (provider : String) (full_sync : Bool) (now now2 : ℤ) (email_ids : List ℕ)
    (retries : ℕ) (e : PyErr)
    (hsync : sync_user_emails_body svc st user_id provider full_sync now = .error e) :
    (sync_user_emails svc st user_id provider full_sync now retries).1 =
      self_retry retries 3 (60 * 2 ^ retries) ∧
    (retries < 3 → (sync_user_emails svc st user_id provider full_sync now retries).1 =
      .retry (60 * 2 ^ retries)) ∧
    (3 ≤ retries → (sync_user_emails svc st user_id provider full_sync now retries).1 =
      .max_retries_exceeded) ∧
    (process_ai_insights engine st2 user_id email_ids now2 retries).1 =
      self_retry retries 3 (60 * 2 ^ retries) ∧
    (retries < 3 → (process_ai_insights engine st2 user_id email_ids now2 retries).1 =
      .retry (60 * 2 ^ retries)) ∧
    (process_ai_insights engine st2 user_id email_ids now2 retries).2 = st2.rollback ∧
    (process_ai_insights engine st2 user_id email_ids now2 retries).2.committed =
      st2.committed := by
  have hai := process_ai_insights_body_raises engine st2 user_id email_ids now2
  have hs : (sync_user_emails svc st user_id provider full_sync now retries).1 =
      self_retry retries 3 (60 * 2 ^ retries) := by
    rw [sync_user_emails, hsync]
  have ha : process_ai_insights engine st2 user_id email_ids now2 retries =
      (self_retry retries 3 (60 * 2 ^ retries), st2.rollback) := by
    rw [process_ai_insights, hai]
  refine ⟨hs, ?_, ?_, ?_, ?_, ?_, ?_⟩
  · intro hr
    rw [hs, self_retry, if_pos hr]
  · intro hr
    rw [hs, self_retry, if_neg (not_lt.mpr hr)]
  · rw [ha]
  · intro hr
    rw [ha]
    show self_retry retries 3 (60 * 2 ^ retries) = _
    rw [self_retry, if_pos hr]
  · rw [ha]
  · rw [ha]
    rfl

/-- Witness for C5: with no user row, the sync body raises user-not-found
and the first retry is scheduled 60 seconds out; the AI task leaves the
committed state untouched. -/
theorem task_retry_backoff_witness :
    (sync_user_emails svc0 ⟨empty_db, empty_db, 0⟩ 1 "gmail" false 0 0).1 =
      .retry 60 ∧
    (process_ai_insights engine0 ⟨empty_db, empty_db, 0⟩ 1 [] 0 0).2.committed =
      (⟨empty_db, empty_db, 0⟩ : Session).committed := by
  have h := task_retry_backoff svc0 engine0 ⟨empty_db, empty_db, 0⟩ ⟨empty_db, empty_db, 0⟩
    1 "gmail" false 0 0 [] 0
    (.exception ("User " ++ toString (1 : ℤ) ++ " not found")) rfl
  constructor
  · have h2 := h.2.1 (by norm_num)
    rw [h2]
    norm_num
  · exact h.2.2.2.2.2.2
